import Mathlib

set_option maxRecDepth 10000

/-!
# Verification of the Nova Sonic voice-chat client (`run.py`)

A shallow embedding of the protocol-relevant parts of `run.py` (class
`NovaVoiceChat` and the orchestration in `main`), together with theorems
checking the natural-language specification against that code.

Conventions:
* Python strings are modelled as `List Nat` of Unicode code points
  (`strB` converts a Lean string literal).
* `json.loads` is modelled by `Json.parse`, a strict JSON parser over
  code points (objects, arrays, strings with escapes, numbers, literals);
  `none` models a raised `JSONDecodeError`/`TypeError`.
* `base64.b64encode`/`b64decode` are modelled by `b64Encode`/`b64Decode`.
* Fallible Python expressions (raised exceptions) are modelled by `Option`.
-/

/-- Code points of a string literal. -/
def strB (s : String) : List Nat := s.data.map Char.toNat

/-! ## JSON values and a JSON parser (model of `json.loads`) -/

/-- JSON values.  Object members keep their textual order; numbers keep
their raw lexeme (no numeric semantics are needed for any claim). -/
inductive Json where
  | null : Json
  | bool (b : Bool) : Json
  | num (raw : List Nat) : Json
  | str (s : List Nat) : Json
  | arr (elems : List Json) : Json
  | obj (members : List (List Nat × Json)) : Json

/-- JSON whitespace: space, linefeed, tab, carriage return. -/
def isWsB (c : Nat) : Bool := c = 32 || c = 10 || c = 9 || c = 13

/-- Drop leading JSON whitespace. -/
def skipWs : List Nat → List Nat
  | [] => []
  | c :: r => if isWsB c then skipWs r else c :: r

/-- Hexadecimal digit value (for `\uXXXX` escapes). -/
def hexVal (c : Nat) : Option Nat :=
  if 48 ≤ c ∧ c ≤ 57 then some (c - 48)
  else if 97 ≤ c ∧ c ≤ 102 then some (c - 97 + 10)
  else if 65 ≤ c ∧ c ≤ 70 then some (c - 65 + 10)
  else none

/-- Single-character JSON escapes. -/
def escChar (e : Nat) : Option Nat :=
  if e = 34 then some 34 else if e = 92 then some 92 else if e = 47 then some 47
  else if e = 98 then some 8 else if e = 102 then some 12 else if e = 110 then some 10
  else if e = 114 then some 13 else if e = 116 then some 9 else none

/-- Parse the body of a JSON string after its opening quote, up to and
including the closing quote: returns the decoded content and the input
remaining after the closing quote.  Raw control characters are rejected,
as Python's strict-mode `json.loads` does.  (A `\uXXXX` escape is decoded
to its code unit; surrogate-pair combination is not modelled — no claim
involves astral-plane escapes.) -/
def pStringBody : List Nat → Option (List Nat × List Nat)
  | [] => none
  | 92 :: 117 :: h1 :: h2 :: h3 :: h4 :: r3 =>
    match hexVal h1, hexVal h2, hexVal h3, hexVal h4 with
    | some a, some b, some c2, some d =>
      (pStringBody r3).map (fun p => ((((a * 16 + b) * 16 + c2) * 16 + d) :: p.1, p.2))
    | _, _, _, _ => none
  | 92 :: e :: r2 =>
    if e = 117 then none
    else match escChar e with
      | some ec => (pStringBody r2).map (fun p => (ec :: p.1, p.2))
      | none => none
  | c :: r =>
    if c = 34 then some ([], r)
    else if c = 92 then none
    else if c < 32 then none
    else (pStringBody r).map (fun p => (c :: p.1, p.2))

/-- Longest prefix of decimal digits. -/
def spanDigits : List Nat → List Nat × List Nat
  | [] => ([], [])
  | c :: r =>
    if 48 ≤ c ∧ c ≤ 57 then
      let p := spanDigits r
      (c :: p.1, p.2)
    else ([], c :: r)

/-- Parse the fraction/exponent tail of a JSON number, given the already
consumed sign and integer part. -/
def pNumTail (sign intp : List Nat) (r : List Nat) : Option (Json × List Nat) :=
  let fr : Option (List Nat × List Nat) :=
    match r with
    | 46 :: r2 =>
      let p := spanDigits r2
      if p.1 = [] then none else some (46 :: p.1, p.2)
    | _ => some ([], r)
  match fr with
  | none => none
  | some (fracp, r3) =>
    match r3 with
    | 101 :: r4 =>
      (match r4 with
       | 43 :: r5 => (fun p : List Nat × List Nat =>
           if p.1 = [] then none else some (Json.num (sign ++ intp ++ fracp ++ [101, 43] ++ p.1), p.2)) (spanDigits r5)
       | 45 :: r5 => (fun p =>
           if p.1 = [] then none else some (Json.num (sign ++ intp ++ fracp ++ [101, 45] ++ p.1), p.2)) (spanDigits r5)
       | _ => (fun p =>
           if p.1 = [] then none else some (Json.num (sign ++ intp ++ fracp ++ [101] ++ p.1), p.2)) (spanDigits r4))
    | 69 :: r4 =>
      (match r4 with
       | 43 :: r5 => (fun p : List Nat × List Nat =>
           if p.1 = [] then none else some (Json.num (sign ++ intp ++ fracp ++ [69, 43] ++ p.1), p.2)) (spanDigits r5)
       | 45 :: r5 => (fun p =>
           if p.1 = [] then none else some (Json.num (sign ++ intp ++ fracp ++ [69, 45] ++ p.1), p.2)) (spanDigits r5)
       | _ => (fun p =>
           if p.1 = [] then none else some (Json.num (sign ++ intp ++ fracp ++ [69] ++ p.1), p.2)) (spanDigits r4))
    | _ => some (Json.num (sign ++ intp ++ fracp), r3)

/-- Parse a JSON number (leading-zero rule included). -/
def pNumber (input : List Nat) : Option (Json × List Nat) :=
  let core : List Nat → Option (Json × List Nat) := fun r1 =>
    match r1 with
    | 48 :: r2 =>
      (match input with
       | 45 :: _ => pNumTail [45] [48] r2
       | _ => pNumTail [] [48] r2)
    | c :: r2 =>
      if 49 ≤ c ∧ c ≤ 57 then
        let p := spanDigits r2
        (match input with
         | 45 :: _ => pNumTail [45] (c :: p.1) p.2
         | _ => pNumTail [] (c :: p.1) p.2)
      else none
    | [] => none
  match input with
  | 45 :: r1 => core r1
  | _ => core input

/-- Expect an exact literal continuation (`rue`, `alse`, `ull`). -/
def dropLit : List Nat → List Nat → Option (List Nat)
  | [], r => some r
  | l :: ls, r =>
    match r with
    | [] => none
    | c :: cs => if c = l then dropLit ls cs else none

mutual

/-- Parse one JSON value.  The fuel argument bounds bracket-nesting depth
only; `Json.parse` supplies `input.length + 1`, which no input can
exhaust, so the parser is a total JSON recognizer. -/
def parseValue : Nat → List Nat → Option (Json × List Nat)
  | 0, _ => none
  | fuel + 1, input =>
    match skipWs input with
    | [] => none
    | c :: r =>
      if c = 34 then (pStringBody r).map (fun p => (Json.str p.1, p.2))
      else if c = 123 then
        match skipWs r with
        | 125 :: r2 => some (Json.obj [], r2)
        | _ => parseMembers fuel [] r
      else if c = 91 then
        match skipWs r with
        | 93 :: r2 => some (Json.arr [], r2)
        | _ => parseElems fuel [] r
      else if c = 116 then (dropLit [114, 117, 101] r).map (fun r2 => (Json.bool true, r2))
      else if c = 102 then (dropLit [97, 108, 115, 101] r).map (fun r2 => (Json.bool false, r2))
      else if c = 110 then (dropLit [117, 108, 108] r).map (fun r2 => (Json.null, r2))
      else pNumber (c :: r)

/-- Parse the members of a nonempty JSON object, after its `{`. -/
def parseMembers : Nat → List (List Nat × Json) → List Nat → Option (Json × List Nat)
  | 0, _, _ => none
  | fuel + 1, acc, input =>
    match skipWs input with
    | [] => none
    | c :: r =>
      if c = 34 then
        match pStringBody r with
        | none => none
        | some (k, r2) =>
          match skipWs r2 with
          | [] => none
          | c2 :: r3 =>
            if c2 = 58 then
              match parseValue fuel r3 with
              | none => none
              | some (v, r4) =>
                match skipWs r4 with
                | [] => none
                | c3 :: r5 =>
                  if c3 = 44 then parseMembers fuel (acc ++ [(k, v)]) r5
                  else if c3 = 125 then some (Json.obj (acc ++ [(k, v)]), r5)
                  else none
            else none
      else none

/-- Parse the elements of a nonempty JSON array, after its `[`. -/
def parseElems : Nat → List Json → List Nat → Option (Json × List Nat)
  | 0, _, _ => none
  | fuel + 1, acc, input =>
    match parseValue fuel input with
    | none => none
    | some (v, r) =>
      match skipWs r with
      | [] => none
      | c :: r2 =>
        if c = 44 then parseElems fuel (acc ++ [v]) r2
        else if c = 93 then some (Json.arr (acc ++ [v]), r2)
        else none

end

/-- Model of `json.loads`: parse a complete JSON document (trailing
whitespace allowed, anything else rejected).  `none` models a raised
decode error. -/
def Json.parse (input : List Nat) : Option Json :=
  match parseValue (input.length + 1) input with
  | some (v, rest) => if skipWs rest = [] then some v else none
  | none => none

/-- Characters that may appear verbatim inside a JSON string literal:
not the quote, not the backslash, not a control character. -/
def jsonSafeChar (c : Nat) : Bool := c ≠ 34 && c ≠ 92 && 32 ≤ c

theorem pStringBody_append (s : List Nat) {rest : List Nat} (h : s.all jsonSafeChar = true) :
    pStringBody (s ++ 34 :: rest) = some (s, rest) := by
  induction s with
  | nil => rfl
  | cons c s ih =>
    simp only [List.all_cons, Bool.and_eq_true] at h
    obtain ⟨hc, hs⟩ := h
    simp only [jsonSafeChar, Bool.and_eq_true, decide_eq_true_eq, bne_iff_ne, ne_eq] at hc
    have e1 : ¬ c = 34 := hc.1.1
    have e2 : ¬ c = 92 := hc.1.2
    have e3 : ¬ c < 32 := by omega
    rw [List.cons_append, pStringBody.eq_def]
    split
    · simp_all
    · rename_i heq; exfalso; rw [List.cons.injEq] at heq; exact e2 heq.1
    · rename_i heq; exfalso; rw [List.cons.injEq] at heq; exact e2 heq.1
    · rename_i c' r' heq
      rw [List.cons.injEq] at heq
      obtain ⟨rfl, hr⟩ := heq
      rw [if_neg e1, if_neg e2, if_neg e3, ← hr, ih hs, Option.map_some']

/-! Stepping lemmas used to evaluate the parser symbolically on the
envelopes that the session builds by string interpolation. -/

theorem parseValue_str {fuel : Nat} {input r s r2 : List Nat}
    (h0 : fuel ≠ 0) (h1 : skipWs input = 34 :: r) (h2 : pStringBody r = some (s, r2)) :
    parseValue fuel input = some (Json.str s, r2) := by
  obtain ⟨f, rfl⟩ : ∃ f, fuel = f + 1 := ⟨fuel - 1, by omega⟩
  simp only [parseValue, h1, h2, Option.map_some']
  norm_num

theorem parseValue_objNE {fuel : Nat} {input r r2 : List Nat} {p : Json × List Nat}
    (h0 : fuel ≠ 0) (h1 : skipWs input = 123 :: r) (h2 : skipWs r = 34 :: r2)
    (h3 : parseMembers (fuel - 1) [] r = some p) :
    parseValue fuel input = some p := by
  obtain ⟨f, rfl⟩ : ∃ f, fuel = f + 1 := ⟨fuel - 1, by omega⟩
  simp only [Nat.add_sub_cancel] at h3
  simp only [parseValue, h1, h2, h3]
  norm_num

theorem parseMembers_cons {fuel : Nat} {acc : List (List Nat × Json)}
    {input r k r2 r3 r4 r5 : List Nat} {v : Json} {out : Option (Json × List Nat)}
    (h0 : fuel ≠ 0) (h1 : skipWs input = 34 :: r) (h2 : pStringBody r = some (k, r2))
    (h3 : skipWs r2 = 58 :: r3) (h4 : parseValue (fuel - 1) r3 = some (v, r4))
    (h5 : skipWs r4 = 44 :: r5)
    (h6 : parseMembers (fuel - 1) (acc ++ [(k, v)]) r5 = out) :
    parseMembers fuel acc input = out := by
  obtain ⟨f, rfl⟩ : ∃ f, fuel = f + 1 := ⟨fuel - 1, by omega⟩
  simp only [Nat.add_sub_cancel] at h4 h6
  rw [← h6]
  simp only [parseMembers, h1, h2, h3, h4, h5]
  norm_num

theorem parseMembers_last {fuel : Nat} {acc : List (List Nat × Json)}
    {input r k r2 r3 r4 r5 : List Nat} {v : Json}
    (h0 : fuel ≠ 0) (h1 : skipWs input = 34 :: r) (h2 : pStringBody r = some (k, r2))
    (h3 : skipWs r2 = 58 :: r3) (h4 : parseValue (fuel - 1) r3 = some (v, r4))
    (h5 : skipWs r4 = 125 :: r5) :
    parseMembers fuel acc input = some (Json.obj (acc ++ [(k, v)]), r5) := by
  obtain ⟨f, rfl⟩ : ∃ f, fuel = f + 1 := ⟨fuel - 1, by omega⟩
  simp only [Nat.add_sub_cancel] at h4
  simp only [parseMembers, h1, h2, h3, h4, h5]
  norm_num

/-- Sanity: the parser accepts a document exercising every value form. -/
theorem json_parse_sanity :
    Json.parse (strB "\x7b\"a\": \"x\\\"y\", \"n\": 1024, \"t\": true, \"f\": [0.9, -2e+3], \"z\": null\x7d") =
      some (Json.obj [(strB "a", Json.str (strB "x\"y")), (strB "n", Json.num (strB "1024")),
        (strB "t", Json.bool true), (strB "f", Json.arr [Json.num (strB "0.9"), Json.num (strB "-2e+3")]),
        (strB "z", Json.null)]) := by rfl

/-- Sanity: an unescaped interior quote is a syntax error, as in `json.loads`. -/
theorem json_parse_sanity_bad_quote :
    Json.parse (strB "\x7b\"a\": \"he said \"hi\"\"\x7d") = none := by rfl

/-! ## base64 (model of `base64.b64encode` / `base64.b64decode`) -/

/-- The base64 alphabet: sextet value to character code. -/
def b64Char (n : Nat) : Nat :=
  if n < 26 then 65 + n
  else if n < 52 then 97 + (n - 26)
  else if n < 62 then 48 + (n - 52)
  else if n = 62 then 43
  else 47

/-- Character code back to sextet value. -/
def b64CharVal (c : Nat) : Option Nat :=
  if 65 ≤ c ∧ c ≤ 90 then some (c - 65)
  else if 97 ≤ c ∧ c ≤ 122 then some (c - 97 + 26)
  else if 48 ≤ c ∧ c ≤ 57 then some (c - 48 + 52)
  else if c = 43 then some 62
  else if c = 47 then some 63
  else none

/-- Standard base64 encoding of a byte list (with `=` padding), as
`base64.b64encode` produces. -/
def b64Encode : List Nat → List Nat
  | [] => []
  | [b0] => [b64Char (b0 / 4), b64Char (b0 % 4 * 16), 61, 61]
  | [b0, b1] => [b64Char (b0 / 4), b64Char (b0 % 4 * 16 + b1 / 16), b64Char (b1 % 16 * 4), 61]
  | b0 :: b1 :: b2 :: rest =>
    b64Char (b0 / 4) :: b64Char (b0 % 4 * 16 + b1 / 16) :: b64Char (b1 % 16 * 4 + b2 / 64) ::
      b64Char (b2 % 64) :: b64Encode rest

/-- base64 decoding of four-character groups with `=` padding (canonical
inputs; `base64.b64decode` additionally discards characters outside the
alphabet, which no claim depends on). -/
def b64Decode : List Nat → Option (List Nat)
  | [] => some []
  | c1 :: c2 :: c3 :: c4 :: rest =>
    match b64CharVal c1, b64CharVal c2 with
    | some v1, some v2 =>
      if c3 = 61 then
        if c4 = 61 ∧ rest = [] then some [v1 * 4 + v2 / 16] else none
      else
        match b64CharVal c3 with
        | some v3 =>
          if c4 = 61 then
            if rest = [] then some [v1 * 4 + v2 / 16, v2 % 16 * 16 + v3 / 4] else none
          else
            match b64CharVal c4, b64Decode rest with
            | some v4, some bs =>
              some ((v1 * 4 + v2 / 16) :: (v2 % 16 * 16 + v3 / 4) :: (v3 % 4 * 64 + v4) :: bs)
            | _, _ => none
        | none => none
    | _, _ => none
  | _ => none

theorem b64CharVal_b64Char (n : Nat) (h : n < 64) : b64CharVal (b64Char n) = some n := by
  have key : ∀ m : Fin 64, b64CharVal (b64Char m.val) = some m.val := by decide
  exact key ⟨n, h⟩

theorem b64Char_ne_61 (n : Nat) (h : n < 64) : ¬ b64Char n = 61 := by
  have key : ∀ m : Fin 64, decide (¬ b64Char m.val = 61) = true := by decide
  exact of_decide_eq_true (key ⟨n, h⟩)

/-- Decoding inverts encoding on genuine byte lists. -/
theorem b64_roundtrip (bs : List Nat) (h : bs.all (· < 256) = true) :
    b64Decode (b64Encode bs) = some bs := by
  induction bs using b64Encode.induct with
  | case1 => rfl
  | case2 b0 =>
    simp only [List.all_cons, List.all_nil, Bool.and_true, decide_eq_true_eq] at h
    have e1 : b0 / 4 < 64 := by omega
    have e2 : b0 % 4 * 16 < 64 := by omega
    simp only [b64Encode, b64Decode, b64CharVal_b64Char _ e1, b64CharVal_b64Char _ e2]
    norm_num
    omega
  | case3 b0 b1 =>
    simp only [List.all_cons, List.all_nil, Bool.and_true, Bool.and_eq_true, decide_eq_true_eq] at h
    obtain ⟨h0, h1⟩ := h
    have e1 : b0 / 4 < 64 := by omega
    have e2 : b0 % 4 * 16 + b1 / 16 < 64 := by omega
    have e3 : b1 % 16 * 4 < 64 := by omega
    simp only [b64Encode, b64Decode, b64CharVal_b64Char _ e1, b64CharVal_b64Char _ e2,
      b64CharVal_b64Char _ e3, if_neg (b64Char_ne_61 _ e3)]
    norm_num
    exact ⟨by omega, by omega⟩
  | case4 b0 b1 b2 rest ih =>
    simp only [List.all_cons, Bool.and_eq_true, decide_eq_true_eq] at h
    obtain ⟨h0, h1, h2, hrest⟩ := h
    have e1 : b0 / 4 < 64 := by omega
    have e2 : b0 % 4 * 16 + b1 / 16 < 64 := by omega
    have e3 : b1 % 16 * 4 + b2 / 64 < 64 := by omega
    have e4 : b2 % 64 < 64 := by omega
    have ihh := ih (by simp only [List.all_eq_true, decide_eq_true_eq] at hrest ⊢; exact hrest)
    simp only [b64Encode, b64Decode, b64CharVal_b64Char _ e1, b64CharVal_b64Char _ e2,
      b64CharVal_b64Char _ e3, b64CharVal_b64Char _ e4, if_neg (b64Char_ne_61 _ e3),
      if_neg (b64Char_ne_61 _ e4), ihh]
    norm_num
    exact ⟨by omega, by omega, by omega⟩

/-- Every character the encoder emits is JSON-safe: the base64 alphabet
and the padding character contain no quote, backslash, or control
character. -/
theorem b64Char_safe (n : Nat) : jsonSafeChar (b64Char n) = true := by
  unfold b64Char jsonSafeChar
  split_ifs <;> simp <;> omega

theorem b64Encode_safe (bs : List Nat) : (b64Encode bs).all jsonSafeChar = true := by
  induction bs using b64Encode.induct with
  | case1 => rfl
  | case2 b0 =>
    simp only [b64Encode, List.all_cons, List.all_nil, b64Char_safe, Bool.and_true, Bool.true_and]
    rfl
  | case3 b0 b1 =>
    simp only [b64Encode, List.all_cons, List.all_nil, b64Char_safe, Bool.and_true, Bool.true_and]
    rfl
  | case4 b0 b1 b2 rest ih =>
    simp only [b64Encode, List.all_cons, b64Char_safe, Bool.true_and]
    exact ih

/-! ## Wire event templates

The exact f-string templates of `run.py`, split at their interpolation
points (`{self.prompt_name}`, `{self.voice_id}`, `{self.content_name}`,
`{self.audio_content_name}`, `{system_prompt}`, `{blob.decode('utf-8')}`),
with Python's `{{`/`}}` unescaped to `{`/`}`. -/

def sessionStartTplA : String := "\n        \x7b\n          \"event\": \x7b\n            \"sessionStart\": \x7b\n              \"inferenceConfiguration\": \x7b\n                \"maxTokens\": 1024,\n                \"topP\": 0.9,\n                \"temperature\": 0.7\n              \x7d\n            \x7d\n          \x7d\n        \x7d\n        "

def promptStartTplA : String := "\n        \x7b\n          \"event\": \x7b\n            \"promptStart\": \x7b\n              \"promptName\": \""

def promptStartTplB : String := "\",\n              \"textOutputConfiguration\": \x7b\n                \"mediaType\": \"text/plain\"\n              \x7d,\n              \"audioOutputConfiguration\": \x7b\n                \"mediaType\": \"audio/lpcm\",\n                \"sampleRateHertz\": 24000,\n                \"sampleSizeBits\": 16,\n                \"channelCount\": 1,\n                \"voiceId\": \""

def promptStartTplC : String := "\",\n                \"encoding\": \"base64\",\n                \"audioType\": \"SPEECH\"\n              \x7d\n            \x7d\n          \x7d\n        \x7d\n        "

def textContentStartTplA : String := "\n        \x7b\n            \"event\": \x7b\n                \"contentStart\": \x7b\n                    \"promptName\": \""

def textContentStartTplB : String := "\",\n                    \"contentName\": \""

def textContentStartTplC : String := "\",\n                    \"type\": \"TEXT\",\n                    \"interactive\": true,\n                    \"role\": \"SYSTEM\",\n                    \"textInputConfiguration\": \x7b\n                        \"mediaType\": \"text/plain\"\n                    \x7d\n                \x7d\n            \x7d\n        \x7d\n        "

def textInputTplA : String := "\n        \x7b\n            \"event\": \x7b\n                \"textInput\": \x7b\n                    \"promptName\": \""

def textInputTplB : String := "\",\n                    \"contentName\": \""

def textInputTplC : String := "\",\n                    \"content\": \""

def textInputTplD : String := "\"\n                \x7d\n            \x7d\n        \x7d\n        "

def textContentEndTplA : String := "\n        \x7b\n            \"event\": \x7b\n                \"contentEnd\": \x7b\n                    \"promptName\": \""

def textContentEndTplB : String := "\",\n                    \"contentName\": \""

def textContentEndTplC : String := "\"\n                \x7d\n            \x7d\n        \x7d\n        "

def audioContentStartTplA : String := "\n        \x7b\n            \"event\": \x7b\n                \"contentStart\": \x7b\n                    \"promptName\": \""

def audioContentStartTplB : String := "\",\n                    \"contentName\": \""

def audioContentStartTplC : String := "\",\n                    \"type\": \"AUDIO\",\n                    \"interactive\": true,\n                    \"role\": \"USER\",\n                    \"audioInputConfiguration\": \x7b\n                        \"mediaType\": \"audio/lpcm\",\n                        \"sampleRateHertz\": 16000,\n                        \"sampleSizeBits\": 16,\n                        \"channelCount\": 1,\n                        \"audioType\": \"SPEECH\",\n                        \"encoding\": \"base64\"\n                    \x7d\n                \x7d\n            \x7d\n        \x7d\n        "

def audioInputTplA : String := "\n        \x7b\n            \"event\": \x7b\n                \"audioInput\": \x7b\n                    \"promptName\": \""

def audioInputTplB : String := "\",\n                    \"contentName\": \""

def audioInputTplC : String := "\",\n                    \"content\": \""

def audioInputTplD : String := "\"\n                \x7d\n            \x7d\n        \x7d\n        "

def audioContentEndTplA : String := "\n        \x7b\n            \"event\": \x7b\n                \"contentEnd\": \x7b\n                    \"promptName\": \""

def audioContentEndTplB : String := "\",\n                    \"contentName\": \""

def audioContentEndTplC : String := "\"\n                \x7d\n            \x7d\n        \x7d\n        "

def promptEndTplA : String := "\n        \x7b\n            \"event\": \x7b\n                \"promptEnd\": \x7b\n                    \"promptName\": \""

def promptEndTplB : String := "\"\n                \x7d\n            \x7d\n        \x7d\n        "

def sessionEndTplA : String := "\n        \x7b\n            \"event\": \x7b\n                \"sessionEnd\": \x7b\x7d\n            \x7d\n        \x7d\n        "

/-- The system prompt sent at session start (`system_prompt` in
`start_session`, three adjacent string literals concatenated). -/
def systemPromptText : String :=
  "You are a friendly assistant. The user and you will engage in a spoken dialog exchanging the transcripts of a natural real-time conversation. Keep your responses short, generally two or three sentences for chatty scenarios."

/-- The `text_content_end` and `audio_content_end` f-strings of the source
are textually identical templates (only the interpolated content name
differs), so one encoder serves both call sites. -/
theorem contentEnd_templates_agree :
    textContentEndTplA = audioContentEndTplA ∧ textContentEndTplB = audioContentEndTplB ∧
      textContentEndTplC = audioContentEndTplC := ⟨rfl, rfl, rfl⟩

/-! ## Outbound events and their encoding -/

/-- One outbound event, one constructor per f-string template sent through
`send_event`.  `contentEnd` covers both the TEXT close in `start_session`
and the AUDIO close in `end_audio_input` (identical templates). -/
inductive WireEvent where
  | sessionStart : WireEvent
  | promptStart (promptName voiceId : String) : WireEvent
  | contentStartText (promptName contentName : String) : WireEvent
  | textInput (promptName contentName content : String) : WireEvent
  | contentEnd (promptName contentName : String) : WireEvent
  | contentStartAudio (promptName contentName : String) : WireEvent
  | audioInput (promptName contentName : String) (audioBytes : List Nat) : WireEvent
  | promptEnd (promptName : String) : WireEvent
  | sessionEnd : WireEvent
deriving DecidableEq

/-- The exact code points handed to `send_event` for each event: the
template fragments with the identifiers and payloads interpolated in
between, exactly as the source's f-strings do.  The `audioInput` payload
is base64-encoded before interpolation (`blob = base64.b64encode(...)`);
the `textInput` payload is interpolated verbatim, with no escaping. -/
def WireEvent.encode : WireEvent → List Nat
  | .sessionStart => strB sessionStartTplA
  | .promptStart p v =>
    strB promptStartTplA ++ strB p ++ strB promptStartTplB ++ strB v ++ strB promptStartTplC
  | .contentStartText p c =>
    strB textContentStartTplA ++ strB p ++ strB textContentStartTplB ++ strB c ++ strB textContentStartTplC
  | .textInput p c content =>
    strB textInputTplA ++ strB p ++ strB textInputTplB ++ strB c ++ strB textInputTplC ++
      strB content ++ strB textInputTplD
  | .contentEnd p c =>
    strB textContentEndTplA ++ strB p ++ strB textContentEndTplB ++ strB c ++ strB textContentEndTplC
  | .contentStartAudio p c =>
    strB audioContentStartTplA ++ strB p ++ strB audioContentStartTplB ++ strB c ++ strB audioContentStartTplC
  | .audioInput p c audioBytes =>
    strB audioInputTplA ++ strB p ++ strB audioInputTplB ++ strB c ++ strB audioInputTplC ++
      b64Encode audioBytes ++ strB audioInputTplD
  | .promptEnd p => strB promptEndTplA ++ strB p ++ strB promptEndTplB
  | .sessionEnd => strB sessionEndTplA

/-! ## Session state machine (model of `NovaVoiceChat`'s outbound side)

`Chat` models the fields of `NovaVoiceChat` that the outbound protocol
methods read or write.  The transport (`self.client`, `self.stream`), the
spawned response task and the audio device handles are external
collaborators; sending is modelled by returning the list of `WireEvent`s
passed to `send_event`, in call order. -/

structure Chat where
  is_active : Bool
  prompt_name : String
  content_name : String
  audio_content_name : String
  voice_id : String
  input_stream_closed : Bool
deriving DecidableEq

/-- `start_session` (lines 70-172): opens the stream, sets
`is_active = True`, then sends the five events in this order, then spawns
`_process_responses`.  There is no state check before doing any of this. -/
def start_session (s : Chat) : Chat × List WireEvent :=
  ({ s with is_active := true },
   [WireEvent.sessionStart,
    WireEvent.promptStart s.prompt_name s.voice_id,
    WireEvent.contentStartText s.prompt_name s.content_name,
    WireEvent.textInput s.prompt_name s.content_name systemPromptText,
    WireEvent.contentEnd s.prompt_name s.content_name])

/-- `start_audio_input` (lines 174-197): sends the AUDIO `contentStart`,
unconditionally. -/
def start_audio_input (s : Chat) : List WireEvent :=
  [WireEvent.contentStartAudio s.prompt_name s.audio_content_name]

/-- `send_audio_chunk` (lines 199-216): a silent no-op when the session is
not active, otherwise sends one `audioInput` event carrying the chunk. -/
def send_audio_chunk (s : Chat) (audioBytes : List Nat) : List WireEvent :=
  if s.is_active then [WireEvent.audioInput s.prompt_name s.audio_content_name audioBytes]
  else []

/-- `end_audio_input` (lines 218-230): sends the AUDIO `contentEnd`,
unconditionally — there is no `is_active` guard. -/
def end_audio_input (s : Chat) : List WireEvent :=
  [WireEvent.contentEnd s.prompt_name s.audio_content_name]

/-- `end_session` (lines 232-258): returns immediately when
`is_active` is false; otherwise sends `promptEnd` then `sessionEnd`,
closes the input stream, and clears `is_active`. -/
def end_session (s : Chat) : Chat × List WireEvent :=
  if s.is_active then
    ({ s with is_active := false, input_stream_closed := true },
     [WireEvent.promptEnd s.prompt_name, WireEvent.sessionEnd])
  else (s, [])

/-- The shutdown path of `main` (lines 404-425): the `finally` block sets
`is_active = False` first, then cancels the playback/capture tasks;
`capture_audio`'s own `finally` (lines 360-365) then runs
`end_audio_input()`; finally `main` awaits `end_session()`.  The emitted
events are those of `end_audio_input` followed by those of `end_session`,
both invoked on the already-deactivated session. -/
def mainShutdown (s : Chat) : Chat × List WireEvent :=
  let s1 : Chat := { s with is_active := false }
  let evCapture := end_audio_input s1
  let r := end_session s1
  (r.1, evCapture ++ r.2)

/-! ## Inbound dispatcher (model of `_process_responses`, lines 260-307)

`DispState` models the fields of `NovaVoiceChat` that the dispatcher
reads or writes: `self.role` (any decoded JSON value, initially `None`),
`self.display_assistant_text`, and `self.audio_queue`.  Rendered
transcript lines (the `print` calls) are collected as `OutLine`s.
A `none` result models an exception escaping the event handling; since
the single `try` of `_process_responses` wraps the whole `while` loop,
such an exception is logged and terminates the loop. -/

structure DispState where
  role : Option Json
  display_assistant_text : Bool
  audio_queue : List (List Nat)

/-- A rendered transcript line: `print(f"アシスタント: {text}")` or
`print(f"ユーザー: {text}")`. -/
inductive OutLine where
  | assistant (text : Json) : OutLine
  | user (text : Json) : OutLine

/-- The initial dispatcher state set in `__init__`:
`display_assistant_text = False`, `role = None`, empty queue. -/
def dispInit : DispState := { role := none, display_assistant_text := false, audio_queue := [] }

/-- Substring test, modelling Python's `needle in (str)`. -/
def containsSeq (needle : List Nat) : List Nat → Bool
  | [] => needle.isEmpty
  | c :: r => needle.isPrefixOf (c :: r) || containsSeq needle r

/-- Python's `needle in j` for a decoded JSON value: key membership for a
dict, element equality for a list, substring for a string, and a raised
`TypeError` (`none`) for numbers, booleans and `None`. -/
def pyIn (needle : List Nat) : Json → Option Bool
  | Json.obj ms => some (ms.any (fun m => m.1 == needle))
  | Json.arr es => some (es.any (fun e => match e with | Json.str s => s == needle | _ => false))
  | Json.str s => some (containsSeq needle s)
  | _ => none

/-- Last-wins key lookup in decoded object members, as `json.loads`
builds a `dict` in which later duplicate keys overwrite earlier ones. -/
def dictGet (ms : List (List Nat × Json)) (key : List Nat) : Option Json :=
  ms.foldl (fun acc m => if m.1 == key then some m.2 else acc) none

/-- Python's `j[key]` with a string key: value of a dict key (`none`
models the raised `KeyError` when absent), raised `TypeError` (`none`)
for every non-dict. -/
def pyGetKey (j : Json) (key : List Nat) : Option Json :=
  match j with
  | Json.obj ms => dictGet ms key
  | _ => none

/-- Python's `v == "word"` where `v` is an optional decoded JSON value. -/
def isStrEq : Option Json → List Nat → Bool
  | some (Json.str s), w => s == w
  | _, _ => false

/-- The `contentStart` branch (lines 273-288): always stores the event's
`role` (raising if absent); if `additionalModelFields` is present, its
string value is JSON-decoded again and `display_assistant_text` is set to
whether its `generationStage` equals `"SPECULATIVE"` (set to `False` for
any other stage or a missing stage). -/
def handleContentStart (st : DispState) (cs : Json) : Option DispState :=
  match pyGetKey cs (strB "role") with
  | none => none
  | some roleVal =>
    let st1 : DispState := { st with role := some roleVal }
    match pyIn (strB "additionalModelFields") cs with
    | none => none
    | some false => some st1
    | some true =>
      match pyGetKey cs (strB "additionalModelFields") with
      | none => none
      | some (Json.str af) =>
        match Json.parse af with
        | none => none
        | some (Json.obj ms) =>
          some { st1 with display_assistant_text := isStrEq (dictGet ms (strB "generationStage")) (strB "SPECULATIVE") }
        | some _ => none
      | some _ => none

/-- The `textOutput` branch (lines 291-297): render as assistant text when
`role == "ASSISTANT" and display_assistant_text`, as user text when
`role == "USER"`, otherwise render nothing. -/
def handleTextOutput (st : DispState) (ev : Json) : Option (DispState × List OutLine) :=
  match pyGetKey ev (strB "textOutput") with
  | none => none
  | some toObj =>
    match pyGetKey toObj (strB "content") with
    | none => none
    | some text =>
      if isStrEq st.role (strB "ASSISTANT") && st.display_assistant_text then
        some (st, [OutLine.assistant text])
      else if isStrEq st.role (strB "USER") then
        some (st, [OutLine.user text])
      else
        some (st, [])

/-- The `audioOutput` branch (lines 299-303): base64-decode the content
and append it to the audio queue. -/
def handleAudioOutput (st : DispState) (ev : Json) : Option (DispState × List OutLine) :=
  match pyGetKey ev (strB "audioOutput") with
  | none => none
  | some aoObj =>
    match pyGetKey aoObj (strB "content") with
    | none => none
    | some (Json.str content) =>
      match b64Decode content with
      | none => none
      | some bytes => some ({ st with audio_queue := st.audio_queue ++ [bytes] }, [])
    | some _ => none

/-- One iteration of the dispatcher loop on one received payload
(lines 263-303).  An empty payload is skipped (`result.value.bytes_` is
falsy).  A payload that fails `json.loads`, or whose handling raises, is
`none`.  Valid JSON without an `event` member, or with an `event` whose
members match none of the three handled names, falls through with no
effect. -/
def handleMsg (st : DispState) (msg : List Nat) : Option (DispState × List OutLine) :=
  if msg.isEmpty then some (st, [])
  else
    match Json.parse msg with
    | none => none
    | some j =>
      match pyIn (strB "event") j with
      | none => none
      | some false => some (st, [])
      | some true =>
        match pyGetKey j (strB "event") with
        | none => none
        | some ev =>
          match pyIn (strB "contentStart") ev with
          | none => none
          | some true =>
            match pyGetKey ev (strB "contentStart") with
            | none => none
            | some cs => (handleContentStart st cs).map (fun st2 => (st2, []))
          | some false =>
            match pyIn (strB "textOutput") ev with
            | none => none
            | some true => handleTextOutput st ev
            | some false =>
              match pyIn (strB "audioOutput") ev with
              | none => none
              | some true => handleAudioOutput st ev
              | some false => some (st, [])

/-- The dispatcher loop over a finite list of received payloads (the
messages delivered while `is_active` holds).  Because the single
`try`/`except` wraps the entire `while` loop, the first handling failure
logs and leaves the loop: the result's boolean records whether the loop
was terminated early, and the remaining messages are then not processed. -/
def processResponses (st : DispState) : List (List Nat) → DispState × List OutLine × Bool
  | [] => (st, [], false)
  | m :: ms =>
    match handleMsg st m with
    | none => (st, [], true)
    | some (st2, out) =>
      let rest := processResponses st2 ms
      (rest.1, out ++ rest.2.1, rest.2.2)

/-! ## Concrete fixtures -/

/-- A session object as `__init__` leaves it (uuid4 identifiers,
`is_active = False`). -/
def chat0 : Chat :=
  { is_active := false
    prompt_name := "6d170de7-47b3-4e27-aa35-41b872c0bc51"
    content_name := "2b8ff3f0-f0b3-4a52-9d3f-5f0413a1a7d6"
    audio_content_name := "9a1db631-6a28-4f07-8a0e-6e3050b64c71"
    voice_id := "tiffany"
    input_stream_closed := false }

/-- The same session after its stream was opened and `is_active` set. -/
def chatActive : Chat := { chat0 with is_active := true }

/-- Classifier for `promptEnd` events. -/
def isPromptEndEv : WireEvent → Bool
  | WireEvent.promptEnd _ => true
  | _ => false

/-- Classifier for `sessionEnd` events. -/
def isSessionEndEv : WireEvent → Bool
  | WireEvent.sessionEnd => true
  | _ => false

/-- The protocol-level name of each outbound event. -/
def WireEvent.eventName : WireEvent → String
  | WireEvent.sessionStart => "sessionStart"
  | WireEvent.promptStart _ _ => "promptStart"
  | WireEvent.contentStartText _ _ => "contentStart"
  | WireEvent.textInput _ _ _ => "textInput"
  | WireEvent.contentEnd _ _ => "contentEnd"
  | WireEvent.contentStartAudio _ _ => "contentStart"
  | WireEvent.audioInput _ _ _ => "audioInput"
  | WireEvent.promptEnd _ => "promptEnd"
  | WireEvent.sessionEnd => "sessionEnd"

/-! ## Claim theorems -/

/-- C1: shutting down while the AUDIO input stream is open emits exactly
one `contentEnd` for the AUDIO content stream — but, contrary to the
claim's parenthetical, `end()` then sends nothing at all: `main` clears
`is_active` before awaiting `end_session()`, whose guard makes it return
immediately, so no `promptEnd` and no `sessionEnd` is ever sent on the
shutdown path (and the input stream is never closed). -/
theorem c1_shutdown_trace (s : Chat) :
    (mainShutdown s).2 = [WireEvent.contentEnd s.prompt_name s.audio_content_name] ∧
    (mainShutdown s).2.count (WireEvent.contentEnd s.prompt_name s.audio_content_name) = 1 ∧
    (mainShutdown s).2.countP isPromptEndEv = 0 ∧
    (mainShutdown s).2.countP isSessionEndEv = 0 ∧
    end_session { s with is_active := false } = ({ s with is_active := false }, []) := by
  refine ⟨rfl, ?_, rfl, rfl, rfl⟩
  simp [mainShutdown, end_audio_input, end_session, List.count_cons]

/-- C4: `start_session` sends exactly five events, in order: the session
configuration, the prompt start, the SYSTEM TEXT content start, the
system-prompt text payload, and the TEXT content end — with nothing
interleaved; it also flips `is_active` on. -/
theorem c4_start_session_five_events (s : Chat) :
    (start_session s).2 =
      [WireEvent.sessionStart,
       WireEvent.promptStart s.prompt_name s.voice_id,
       WireEvent.contentStartText s.prompt_name s.content_name,
       WireEvent.textInput s.prompt_name s.content_name systemPromptText,
       WireEvent.contentEnd s.prompt_name s.content_name] ∧
    (start_session s).2.length = 5 ∧
    (start_session s).2.map WireEvent.eventName =
      ["sessionStart", "promptStart", "contentStart", "textInput", "contentEnd"] ∧
    (start_session s).1.is_active = true :=
  ⟨rfl, rfl, rfl, rfl⟩

/-- C5 counterexample: calling `start_session` a second time on the same
object does not fail — it sends the whole five-event start sequence
again (the source has no state guard and defines no `ProtocolError`). -/
theorem c5_counterexample :
    (start_session (start_session chat0).1).2 = (start_session chat0).2 ∧
    (start_session (start_session chat0).1).2 ≠ [] :=
  ⟨rfl, by decide⟩

/-- C5 amended: a second `start_session` call is not rejected; it re-sends
the identical five-event session-start sequence. -/
theorem c5_start_session_twice_resends (s : Chat) :
    (start_session (start_session s).1).2 = (start_session s).2 ∧
    (start_session (start_session s).1).2.length = 5 :=
  ⟨rfl, rfl⟩

/-- C6: from an active session, `end_session` sends exactly one
`promptEnd` followed by one `sessionEnd`; a second call sends nothing and
leaves the state unchanged. -/
theorem c6_end_session_idempotent (s : Chat) (h : s.is_active = true) :
    (end_session s).2 = [WireEvent.promptEnd s.prompt_name, WireEvent.sessionEnd] ∧
    (end_session (end_session s).1).2 = [] ∧
    (end_session (end_session s).1).1 = (end_session s).1 ∧
    ((end_session s).2 ++ (end_session (end_session s).1).2).countP isPromptEndEv = 1 ∧
    ((end_session s).2 ++ (end_session (end_session s).1).2).countP isSessionEndEv = 1 := by
  simp [end_session, h, isPromptEndEv, isSessionEndEv, List.countP_cons]

/-- C6 witness: the two-call trace at a concrete active session. -/
theorem c6_witness :
    (end_session chatActive).2 = [WireEvent.promptEnd chatActive.prompt_name, WireEvent.sessionEnd] ∧
    (end_session (end_session chatActive).1).2 = [] :=
  ⟨(c6_end_session_idempotent chatActive rfl).1, (c6_end_session_idempotent chatActive rfl).2.1⟩

/-- C10: `end_audio_input` sends its `contentEnd` unconditionally, also on
a deactivated session, while `send_audio_chunk` and `end_session` are
silent no-ops when `is_active` is false; hence the capture loop's cleanup
still emits the AUDIO `contentEnd` during shutdown. -/
theorem c10_end_audio_input_unconditional (s : Chat) (b : List Nat) (h : s.is_active = false) :
    end_audio_input s = [WireEvent.contentEnd s.prompt_name s.audio_content_name] ∧
    send_audio_chunk s b = [] ∧
    end_session s = (s, []) ∧
    WireEvent.contentEnd s.prompt_name s.audio_content_name ∈ (mainShutdown s).2 := by
  refine ⟨rfl, ?_, ?_, ?_⟩
  · simp [send_audio_chunk, h]
  · simp [end_session, h]
  · simp [mainShutdown, end_audio_input, end_session]

/-- C10 witness: the deactivated concrete session. -/
theorem c10_witness :
    end_audio_input chat0 = [WireEvent.contentEnd chat0.prompt_name chat0.audio_content_name] ∧
    send_audio_chunk chat0 [0, 1] = [] :=
  ⟨(c10_end_audio_input_unconditional chat0 [0, 1] rfl).1,
   (c10_end_audio_input_unconditional chat0 [0, 1] rfl).2.1⟩

/-! ## Dispatcher fixtures -/

/-- A payload that is not valid JSON. -/
def msgMalformed : List Nat := strB "\x7b\"event\": "

/-- A valid `contentStart` carrying role `USER`. -/
def msgCsUser : List Nat := strB "\x7b\"event\": \x7b\"contentStart\": \x7b\"role\": \"USER\"\x7d\x7d\x7d"

/-- A valid `textOutput` carrying the text `hello`. -/
def msgToHello : List Nat := strB "\x7b\"event\": \x7b\"textOutput\": \x7b\"content\": \"hello\"\x7d\x7d\x7d"

/-- C2 counterexample: one malformed payload terminates the dispatcher
loop before any later event is handled — the same two valid events that
render a user line when processed alone produce nothing when preceded by
the malformed payload, and the loop reports early termination. -/
theorem c2_counterexample :
    processResponses dispInit [msgMalformed, msgCsUser, msgToHello] = (dispInit, [], true) ∧
    (processResponses dispInit [msgCsUser, msgToHello]).2.1 = [OutLine.user (Json.str (strB "hello"))] ∧
    (processResponses dispInit [msgCsUser, msgToHello]).2.2 = false :=
  ⟨rfl, rfl, rfl⟩

/-- C2 amended: only a nonempty payload that decodes to JSON without a
recognized `event` member is skipped with the loop continuing (as is an
empty payload); a payload on which `json.loads` raises terminates the
dispatcher loop at once, leaving all later messages unprocessed. -/
theorem c2_decode_failure_halts_loop (st : DispState) (msg : List Nat) (msgs : List (List Nat)) :
    (msg.isEmpty = false → Json.parse msg = none →
      processResponses st (msg :: msgs) = (st, [], true)) ∧
    (∀ j, msg.isEmpty = false → Json.parse msg = some j → pyIn (strB "event") j = some false →
      processResponses st (msg :: msgs) = processResponses st msgs) ∧
    (msg.isEmpty = true → processResponses st (msg :: msgs) = processResponses st msgs) := by
  refine ⟨?_, ?_, ?_⟩
  · intro hne hp
    simp [processResponses, handleMsg, hne, hp]
  · intro j hne hp hin
    simp [processResponses, handleMsg, hne, hp, hin]
  · intro hemp
    simp [processResponses, handleMsg, hemp]

/-- C2 witness: the halting and the skipping behaviour at concrete
payloads. -/
theorem c2_witness :
    processResponses dispInit [msgMalformed, msgCsUser] = (dispInit, [], true) ∧
    processResponses dispInit [strB "\x7b\"other\": 1\x7d", msgCsUser] = processResponses dispInit [msgCsUser] :=
  ⟨(c2_decode_failure_halts_loop dispInit msgMalformed [msgCsUser]).1 rfl rfl,
   (c2_decode_failure_halts_loop dispInit (strB "\x7b\"other\": 1\x7d") [msgCsUser]).2.1
     (Json.obj [(strB "other", Json.num (strB "1"))]) rfl rfl rfl⟩

/-- C3: the `textInput` envelope is built by naive interpolation with no
escaping, so a payload containing a quote produces a string that
`json.loads` rejects — against the claim that every JSON-breaking
character is escaped; a payload free of special characters (such as the
fixed system prompt) still yields a well-formed envelope whose `content`
equals the payload. -/
theorem c3_textInput_interpolation_unescaped :
    Json.parse (WireEvent.encode (WireEvent.textInput "prompt-1" "content-1" "say \"hi\"")) = none ∧
    Json.parse (WireEvent.encode (WireEvent.textInput "prompt-1" "content-1" "hello")) =
      some (Json.obj [(strB "event", Json.obj [(strB "textInput", Json.obj
        [(strB "promptName", Json.str (strB "prompt-1")),
         (strB "contentName", Json.str (strB "content-1")),
         (strB "content", Json.str (strB "hello"))])])]) :=
  ⟨rfl, rfl⟩

/-! ## Dispatcher rendering invariants -/

theorem handleAudioOutput_no_lines {st : DispState} {ev : Json} {p : DispState × List OutLine}
    (h : handleAudioOutput st ev = some p) : p.2 = [] := by
  simp only [handleAudioOutput] at h
  repeat' split at h
  all_goals (try cases h)
  all_goals simp_all

theorem handleTextOutput_spec {ev toObj text : Json} (st : DispState)
    (h1 : pyGetKey ev (strB "textOutput") = some toObj)
    (h2 : pyGetKey toObj (strB "content") = some text) :
    handleTextOutput st ev =
      some (st,
        if isStrEq st.role (strB "ASSISTANT") && st.display_assistant_text then [OutLine.assistant text]
        else if isStrEq st.role (strB "USER") then [OutLine.user text]
        else []) := by
  simp only [handleTextOutput, h1, h2]
  split_ifs <;> rfl

theorem handleTextOutput_assistant_inv {st : DispState} {ev : Json} {p : DispState × List OutLine}
    {t : Json} (h : handleTextOutput st ev = some p) (hm : OutLine.assistant t ∈ p.2) :
    isStrEq st.role (strB "ASSISTANT") = true ∧ st.display_assistant_text = true := by
  simp only [handleTextOutput] at h
  repeat' split at h
  all_goals (try cases h)
  all_goals simp_all

/-- C7: the dispatcher renders a `textOutput` exactly when
`(role == "ASSISTANT" and display_assistant_text) or role == "USER"`
holds at that moment, and — over any received payload whatsoever — an
assistant line is only ever produced from a state whose role is
`ASSISTANT` with the display flag set. -/
theorem c7_textOutput_render_iff :
    (∀ (st : DispState) (ev toObj text : Json),
      pyGetKey ev (strB "textOutput") = some toObj →
      pyGetKey toObj (strB "content") = some text →
      handleTextOutput st ev =
        some (st,
          if isStrEq st.role (strB "ASSISTANT") && st.display_assistant_text then [OutLine.assistant text]
          else if isStrEq st.role (strB "USER") then [OutLine.user text]
          else []) ∧
      ((if isStrEq st.role (strB "ASSISTANT") && st.display_assistant_text then [OutLine.assistant text]
          else if isStrEq st.role (strB "USER") then [OutLine.user text]
          else []) ≠ [] ↔
        (isStrEq st.role (strB "ASSISTANT") = true ∧ st.display_assistant_text = true) ∨
          isStrEq st.role (strB "USER") = true)) ∧
    (∀ (st : DispState) (msg : List Nat) (st2 : DispState) (out : List OutLine) (t : Json),
      handleMsg st msg = some (st2, out) → OutLine.assistant t ∈ out →
      isStrEq st.role (strB "ASSISTANT") = true ∧ st.display_assistant_text = true) := by
  constructor
  · intro st ev toObj text h1 h2
    refine ⟨handleTextOutput_spec st h1 h2, ?_⟩
    split_ifs with hA hU
    · exact iff_of_true (by simp) (Or.inl (by rwa [Bool.and_eq_true] at hA))
    · exact iff_of_true (by simp) (Or.inr hU)
    · refine iff_of_false (by simp) ?_
      rintro (⟨ha, hd⟩ | hu)
      · exact hA (by rw [ha, hd]; rfl)
      · exact hU hu
  · intro st msg st2 out t hmsg hmem
    simp only [handleMsg] at hmsg
    split at hmsg
    · cases hmsg
      simp at hmem
    · repeat' split at hmsg
      all_goals try (exact handleTextOutput_assistant_inv hmsg hmem)
      all_goals try (exact Option.noConfusion hmsg)
      all_goals try
        (have h0 : out = [] := handleAudioOutput_no_lines hmsg
         subst h0
         exact absurd hmem (List.not_mem_nil _))
      all_goals try
        (rw [Option.map_eq_some'] at hmsg
         obtain ⟨st3, hcs, heq⟩ := hmsg
         simp only [Prod.mk.injEq] at heq
         obtain ⟨he1, he2⟩ := heq
         subst he2
         exact absurd hmem (List.not_mem_nil _))
      all_goals
        (simp only [Option.some.injEq, Prod.mk.injEq] at hmsg
         obtain ⟨he1, he2⟩ := hmsg
         subst he2
         exact absurd hmem (List.not_mem_nil _))

/-- C7 witness: a concrete user-role state and `textOutput` event. -/
theorem c7_witness :
    handleTextOutput
      { role := some (Json.str (strB "USER")), display_assistant_text := false, audio_queue := [] }
      (Json.obj [(strB "textOutput", Json.obj [(strB "content", Json.str (strB "hello"))])]) =
      some
        ({ role := some (Json.str (strB "USER")), display_assistant_text := false, audio_queue := [] },
          if isStrEq (some (Json.str (strB "USER"))) (strB "ASSISTANT") && false then
            [OutLine.assistant (Json.str (strB "hello"))]
          else if isStrEq (some (Json.str (strB "USER"))) (strB "USER") then
            [OutLine.user (Json.str (strB "hello"))]
          else []) :=
  (c7_textOutput_render_iff.1
    { role := some (Json.str (strB "USER")), display_assistant_text := false, audio_queue := [] }
    (Json.obj [(strB "textOutput", Json.obj [(strB "content", Json.str (strB "hello"))])])
    (Json.obj [(strB "content", Json.str (strB "hello"))])
    (Json.str (strB "hello")) rfl rfl).1

/-! ## The speculative/final scenario -/

/-- The spec's scenario events, as received payloads. -/
def msgCsSpec : List Nat :=
  strB "\x7b\"event\": \x7b\"contentStart\": \x7b\"role\": \"ASSISTANT\", \"additionalModelFields\": \"\x7b\\\"generationStage\\\":\\\"SPECULATIVE\\\"\x7d\"\x7d\x7d\x7d"

def msgToHi : List Nat := strB "\x7b\"event\": \x7b\"textOutput\": \x7b\"content\": \"Hi\"\x7d\x7d\x7d"

def msgCsFinal : List Nat :=
  strB "\x7b\"event\": \x7b\"contentStart\": \x7b\"role\": \"ASSISTANT\", \"additionalModelFields\": \"\x7b\\\"generationStage\\\":\\\"FINAL\\\"\x7d\"\x7d\x7d\x7d"

def msgToHiThere : List Nat := strB "\x7b\"event\": \x7b\"textOutput\": \x7b\"content\": \"Hi there\"\x7d\x7d\x7d"

/-- C8: in the speculative/final scenario exactly `"Hi"` is rendered (as
assistant text) and `"Hi there"` is suppressed, without terminating the
loop; and in general a `contentStart` whose `additionalModelFields`
decodes to an object sets `display_assistant_text` to whether its
`generationStage` equals `"SPECULATIVE"`, alongside storing the role. -/
theorem c8_speculative_shown_final_suppressed :
    (processResponses dispInit [msgCsSpec, msgToHi, msgCsFinal, msgToHiThere]).2.1 =
      [OutLine.assistant (Json.str (strB "Hi"))] ∧
    (processResponses dispInit [msgCsSpec, msgToHi, msgCsFinal, msgToHiThere]).2.2 = false ∧
    (∀ (st : DispState) (cs r : Json) (af : List Nat) (ms : List (List Nat × Json)),
      pyGetKey cs (strB "role") = some r →
      pyIn (strB "additionalModelFields") cs = some true →
      pyGetKey cs (strB "additionalModelFields") = some (Json.str af) →
      Json.parse af = some (Json.obj ms) →
      handleContentStart st cs = some
        { st with
          role := some r
          display_assistant_text := isStrEq (dictGet ms (strB "generationStage")) (strB "SPECULATIVE") }) := by
  refine ⟨rfl, rfl, ?_⟩
  intro st cs r af ms h1 h2 h3 h4
  simp only [handleContentStart, h1, h2, h3, h4]

/-- C8 witness: the general rule applied to the concrete speculative
`contentStart` object. -/
theorem c8_witness :
    handleContentStart dispInit
      (Json.obj [(strB "role", Json.str (strB "ASSISTANT")),
        (strB "additionalModelFields", Json.str (strB "\x7b\"generationStage\":\"SPECULATIVE\"\x7d"))]) =
      some
        { dispInit with
          role := some (Json.str (strB "ASSISTANT"))
          display_assistant_text :=
            isStrEq (dictGet [(strB "generationStage", Json.str (strB "SPECULATIVE"))]
              (strB "generationStage")) (strB "SPECULATIVE") } :=
  c8_speculative_shown_final_suppressed.2.2 dispInit
    (Json.obj [(strB "role", Json.str (strB "ASSISTANT")),
      (strB "additionalModelFields", Json.str (strB "\x7b\"generationStage\":\"SPECULATIVE\"\x7d"))])
    (Json.str (strB "ASSISTANT"))
    (strB "\x7b\"generationStage\":\"SPECULATIVE\"\x7d")
    [(strB "generationStage", Json.str (strB "SPECULATIVE"))]
    rfl rfl rfl rfl

/-! ## The audioInput envelope is well-formed JSON (claim C9) -/

/-- Characters of `str(uuid.uuid4())`: lowercase hex digits and dashes. -/
def uuidChar (c : Nat) : Bool := (48 ≤ c && c ≤ 57) || (97 ≤ c && c ≤ 102) || c = 45

theorem uuidSafe_jsonSafe {s : List Nat} (h : s.all uuidChar = true) :
    s.all jsonSafeChar = true := by
  simp only [List.all_eq_true] at h ⊢
  intro c hcmem
  have hx := h c hcmem
  simp only [uuidChar, Bool.or_eq_true, Bool.and_eq_true, decide_eq_true_eq] at hx
  simp only [jsonSafeChar, Bool.and_eq_true, decide_eq_true_eq, bne_iff_ne, ne_eq]
  omega

/-- The `audioInput` envelope, right-associated for symbolic evaluation. -/
def audioEnvelope (p c : String) (bs : List Nat) : List Nat :=
  strB audioInputTplA ++ (strB p ++ (strB audioInputTplB ++ (strB c ++
    (strB audioInputTplC ++ (b64Encode bs ++ strB audioInputTplD)))))

theorem encode_audioInput (p c : String) (bs : List Nat) :
    WireEvent.encode (WireEvent.audioInput p c bs) = audioEnvelope p c bs := by
  simp [WireEvent.encode, audioEnvelope, List.append_assoc]

/-- The decoded form of the `audioInput` envelope. -/
def audioEnvelopeJson (p c : String) (bs : List Nat) : Json :=
  Json.obj [(strB "event", Json.obj [(strB "audioInput", Json.obj
    [(strB "promptName", Json.str (strB p)),
     (strB "contentName", Json.str (strB c)),
     (strB "content", Json.str (b64Encode bs))])])]

theorem parse_audioEnvelope (p c : String) (bs : List Nat)
    (hp : (strB p).all jsonSafeChar = true) (hc : (strB c).all jsonSafeChar = true) :
    Json.parse (audioEnvelope p c bs) = some (audioEnvelopeJson p c bs) := by
  have hsafeB : (b64Encode bs).all jsonSafeChar = true := b64Encode_safe bs
  have hlen : 40 ≤ (audioEnvelope p c bs).length := by
    simp only [audioEnvelope, List.length_append]
    have h40 : 40 ≤ (strB audioInputTplA).length := by decide
    omega
  have hpv : parseValue ((audioEnvelope p c bs).length + 1) (audioEnvelope p c bs) =
      some (audioEnvelopeJson p c bs, strB "\n        ") := by
    apply parseValue_objNE
    case h0 => omega
    case h1 => rfl
    case h2 => rfl
    apply parseMembers_last
    case h0 => omega
    case h1 => rfl
    case h2 => rfl
    case h3 => rfl
    case h4 =>
      apply parseValue_objNE
      case h0 => omega
      case h1 => rfl
      case h2 => rfl
      apply parseMembers_last
      case h0 => omega
      case h1 => rfl
      case h2 => rfl
      case h3 => rfl
      case h4 =>
        apply parseValue_objNE
        case h0 => omega
        case h1 => rfl
        case h2 => rfl
        apply parseMembers_cons
        case h0 => omega
        case h1 => rfl
        case h2 => rfl
        case h3 => rfl
        case h4 => exact parseValue_str (by omega) rfl (pStringBody_append (strB p) hp)
        case h5 => rfl
        apply parseMembers_cons
        case h0 => omega
        case h1 => rfl
        case h2 => rfl
        case h3 => rfl
        case h4 => exact parseValue_str (by omega) rfl (pStringBody_append (strB c) hc)
        case h5 => rfl
        apply parseMembers_last
        case h0 => omega
        case h1 => rfl
        case h2 => rfl
        case h3 => rfl
        case h4 => exact parseValue_str (by omega) rfl (pStringBody_append (b64Encode bs) hsafeB)
        case h5 => rfl
      case h5 => rfl
    case h5 => rfl
  have hws : skipWs (strB "\n        ") = [] := rfl
  simp only [Json.parse, hpv, hws]
  simp

/-- C9: while active, `send_audio_chunk` emits exactly one `audioInput`
event; because the payload is base64-encoded before interpolation and the
interpolated identifiers are uuid strings, the emitted envelope is valid
JSON whose `content` field holds the base64 text, which decodes back to
exactly the input bytes. -/
theorem c9_audioInput_wellformed (s : Chat) (bs : List Nat)
    (hactive : s.is_active = true)
    (hp : (strB s.prompt_name).all uuidChar = true)
    (hc : (strB s.audio_content_name).all uuidChar = true)
    (hb : bs.all (· < 256) = true) :
    send_audio_chunk s bs = [WireEvent.audioInput s.prompt_name s.audio_content_name bs] ∧
    Json.parse (WireEvent.encode (WireEvent.audioInput s.prompt_name s.audio_content_name bs)) =
      some (audioEnvelopeJson s.prompt_name s.audio_content_name bs) ∧
    b64Decode (b64Encode bs) = some bs := by
  refine ⟨?_, ?_, b64_roundtrip bs hb⟩
  · simp [send_audio_chunk, hactive]
  · rw [encode_audioInput]
    exact parse_audioEnvelope _ _ bs (uuidSafe_jsonSafe hp) (uuidSafe_jsonSafe hc)

/-- C9 witness: a concrete active session and the chunk `[0, 1, 2]`. -/
theorem c9_witness :
    send_audio_chunk chatActive [0, 1, 2] =
      [WireEvent.audioInput chatActive.prompt_name chatActive.audio_content_name [0, 1, 2]] ∧
    b64Decode (b64Encode [0, 1, 2]) = some [0, 1, 2] :=
  ⟨(c9_audioInput_wellformed chatActive [0, 1, 2] rfl (by decide) (by decide) (by decide)).1,
   (c9_audioInput_wellformed chatActive [0, 1, 2] rfl (by decide) (by decide) (by decide)).2.2⟩
